import Mathlib

/-!
Verification development for the satstack service layer
(`httpd/svc/explorer.go` and the `bus` worker code).

Stateful Go code is embedded as pure Lean functions over explicit
environments that record the outcome of every collaborator call
(client construction, raw RPC requests with their two failure modes
RPC-error vs JSON-decode-error, typed wallet calls, ...).  Go `float64`
arithmetic in the supply audit is embedded in `ℚ`; every value the
audit manipulates at the heights considered is an exactly representable
dyadic rational, so the two agree there.  Go `int32`/`int64` fields are
embedded as `ℤ` (only comparisons and small arithmetic are performed on
them, so no wrap-around can occur).
-/

namespace Satstack

/-- The five externally visible status values of `bus.ExplorerStatus.Status`. -/
inductive StatusKind
  | nodeDisconnected
  | pendingScan
  | syncing
  | scanning
  | ready
  deriving DecidableEq, Repr

/-- The locally defined `customBlockChainInfo` shape that `GetStatus` decodes
the raw `getblockchaininfo` response into. -/
structure ChainInfo where
  blocks : ℤ
  headers : ℤ
  verificationProgress : ℚ
  warnings : List String
  deriving DecidableEq, Repr

/-- The dynamically typed `walletInfo.Scanning.Value` of the btcd wallet-info
result: either a `btcjson.ScanProgress` value, a plain boolean, or anything
else (the `default` arm of the Go type switch). -/
inductive ScanningValue
  | scanProgress (progress : ℚ) (duration : ℤ)
  | boolVal (b : Bool)
  | other
  deriving DecidableEq, Repr

/-- The part of the typed `GetWalletInfo` result that the service reads. -/
structure WalletInfo where
  scanning : ScanningValue
  deriving DecidableEq, Repr

/-- Outcome of a raw passthrough RPC call followed by a manual JSON decode:
the request itself can fail, the decode can fail, or a value is produced. -/
inductive RpcResult (α : Type)
  | rpcError (e : String)
  | decodeError (e : String)
  | ok (a : α)
  deriving DecidableEq, Repr

/-- The fields of `bus.Bus` that `GetStatus` reads. -/
structure Bus where
  isPendingScan : Bool
  txIndex : Bool
  pruned : Bool
  chain : String
  currency : String
  deriving DecidableEq, Repr

/-- Outcomes of the collaborator calls a single `GetStatus` invocation can
make, in the order it can make them. -/
structure StatusEnv where
  clientFactory : Except String Unit
  blockchainInfo : RpcResult ChainInfo
  walletInfo : Except String WalletInfo
  deriving Repr

/-- Modelled from the spec: the process-wide version string
(`version.Version`, declared outside the given sources). Its value is
irrelevant to every claim. -/
def satstackVersion : String := "satstack"

/-- The `bus.ExplorerStatus` record returned by `GetStatus`.  `SyncProgress`
and `ScanProgress` are `*float64` in Go, hence `Option ℚ` here. -/
structure ExplorerStatus where
  version : String
  txIndex : Bool
  pruned : Bool
  chain : String
  currency : String
  status : StatusKind
  syncProgress : Option ℚ
  scanProgress : Option ℚ
  deriving DecidableEq, Repr

/-- The base `bus.ExplorerStatus` value built at the top of `GetStatus`
before any case applies (Go zero values for the not-yet-assigned fields). -/
def baseStatus (b : Bus) : ExplorerStatus :=
  { version := satstackVersion
    txIndex := b.txIndex
    pruned := b.pruned
    chain := b.chain
    currency := b.currency
    status := StatusKind.ready
    syncProgress := none
    scanProgress := none }

/-- Embedding of `Service.GetStatus` (explorer.go): cases 1-6 in source
order.  Each collaborator outcome is read from `env` at the point the Go
code performs the corresponding call. -/
def GetStatus (b : Bus) (env : StatusEnv) : ExplorerStatus :=
  -- Case 1: satstack is running the numbers or rescanning the wallet.
  if b.isPendingScan then
    { baseStatus b with status := StatusKind.pendingScan }
  else
    -- Case 2: unable to initialize rpcclient.Client.
    match env.clientFactory with
    | Except.error _ => { baseStatus b with status := StatusKind.nodeDisconnected }
    | Except.ok _ =>
      -- Case 3: chain RPC failed, or its JSON could not be decoded.
      match env.blockchainInfo with
      | RpcResult.rpcError _ =>
          { baseStatus b with status := StatusKind.nodeDisconnected }
      | RpcResult.decodeError _ =>
          { baseStatus b with status := StatusKind.nodeDisconnected }
      | RpcResult.ok bc =>
        -- Case 4: bitcoind is currently catching up on new blocks.
        if bc.blocks ≠ bc.headers then
          { baseStatus b with
              status := StatusKind.syncing
              syncProgress := some (bc.verificationProgress * 100) }
        else
          -- Case 5: wallet info, possibly scanning.
          match env.walletInfo with
          | Except.error _ =>
              { baseStatus b with status := StatusKind.nodeDisconnected }
          | Except.ok w =>
            match w.scanning with
            | ScanningValue.scanProgress p _ =>
                { baseStatus b with
                    status := StatusKind.scanning
                    scanProgress := some (p * 100) }
            -- Case 6: bitcoind is ready to be used with satstack.
            | _ => { baseStatus b with status := StatusKind.ready }

/-- The locally defined `customNetworkInfo` shape that `GetNetwork` decodes
the raw `getnetworkinfo` response into. -/
structure NetworkInfo where
  relayFee : ℚ
  incrementalFee : ℚ
  version : ℤ
  subversion : String
  warnings : List String
  deriving DecidableEq, Repr

/-- The `bus.Network` record (declared outside the given sources; fields
modelled from the spec's network-info surface: relay fee, incremental fee,
node version, subversion). -/
structure Network where
  relayFee : ℚ
  incrementalFee : ℚ
  version : ℤ
  subversion : String
  deriving DecidableEq, Repr

/-- The Go zero value of the `Network` struct, as allocated by `new(bus.Network)`. -/
def zeroNetwork : Network :=
  { relayFee := 0, incrementalFee := 0, version := 0, subversion := "" }

/-- Outcomes of the collaborator calls a single `GetNetwork` invocation can
make. -/
structure NetworkEnv where
  clientFactory : Except String Unit
  networkInfo : RpcResult NetworkInfo
  deriving Repr

/-- Embedding of `Service.GetNetwork` (explorer.go): every failure returns
the freshly allocated zero `Network`; success copies the four decoded
fields. -/
def GetNetwork (env : NetworkEnv) : Network :=
  match env.clientFactory with
  | Except.error _ => zeroNetwork
  | Except.ok _ =>
    match env.networkInfo with
    | RpcResult.rpcError _ => zeroNetwork
    | RpcResult.decodeError _ => zeroNetwork
    | RpcResult.ok ni =>
        { relayFee := ni.relayFee
          incrementalFee := ni.incrementalFee
          version := ni.version
          subversion := ni.subversion }

/-! ## Supply audit (`runTheNumbers`, bus worker code)

The Go loop runs over `float64`; it is embedded over `ℚ`.  At every height
considered by the claims each intermediate value (`50 / 2^i` and the partial
sums below 21 million) is an exactly representable double, so the rational
and the floating computation coincide there. -/

/-- The `halvingBlocks` constant of `runTheNumbers`. -/
def halvingBlocks : ℤ := 210000

/-- The `for` loop of `runTheNumbers`: given the remaining iteration count
and the current `(subsidy, supply)` pair, perform
`supply += halvingBlocks * subsidy; subsidy /= 2` per iteration. -/
def rtnLoop : ℕ → ℚ × ℚ → ℚ × ℚ
  | 0, sv => sv
  | n + 1, (subsidy, supply) => rtnLoop n (subsidy / 2, supply + 210000 * subsidy)

/-- Number of complete halving epochs below `height`: the Go loop exit value
of `i`, i.e. `max 0 (height / 210000)` under Go's `int64` division.  For
`height ≥ 0` truncated and euclidean division agree, and for negative
heights both clamp to `0`, so `Int.toNat` of `ℤ` division is faithful. -/
def rtnEpochs (height : ℤ) : ℕ := (height / halvingBlocks).toNat

/-- The expected circulating supply computed (and logged) by
`runTheNumbers` for a node tip at `height`: the loop starting from
`subsidy = 50, supply = 0`, then
`supply += subsidy * (height - halvingBlocks*i)` for the partial epoch. -/
def runTheNumbersSupply (height : ℤ) : ℚ :=
  let n := rtnEpochs height
  let sv := rtnLoop n (50, 0)
  sv.2 + sv.1 * ((height : ℚ) - 210000 * (n : ℚ))

/-- Modelled from the spec: the halving-schedule supply in closed form —
subsidy starts at 50 and halves each 210,000-block epoch, summed per
complete epoch, plus the correctly-halved subsidy times the elapsed blocks
of the partial final epoch. -/
def specExpectedSupply (height : ℤ) : ℚ :=
  let n := rtnEpochs height
  (∑ i ∈ Finset.range n, 210000 * (50 / 2 ^ i))
    + (50 / 2 ^ n) * ((height : ℚ) - 210000 * (n : ℚ))

theorem rtnLoop_closed (n : ℕ) : ∀ s v : ℚ,
    rtnLoop n (s, v) = (s / 2 ^ n, v + ∑ i ∈ Finset.range n, 210000 * (s / 2 ^ i)) := by
  induction n with
  | zero => intro s v; simp [rtnLoop]
  | succ n ih =>
    intro s v
    rw [rtnLoop, ih, Prod.mk.injEq]
    constructor
    · rw [div_div, ← pow_succ']
    · rw [Finset.sum_range_succ']
      have h : (∑ i ∈ Finset.range n, 210000 * (s / 2 / 2 ^ i))
          = ∑ i ∈ Finset.range n, 210000 * (s / 2 ^ (i + 1)) :=
        Finset.sum_congr rfl (fun i _ => by rw [div_div, ← pow_succ'])
      rw [h]
      ring

/-! ## Import coordinator (`Bus.ImportAccounts` and helpers, bus worker code) -/

/-- The `config.Account` fields read by `descriptors`.  `External` and
`Internal` are `*string` in Go and are dereferenced unconditionally, so
they are embedded as plain strings. -/
structure Account where
  external : String
  internal : String
  depth : Option ℤ
  birthday : Option ℤ
  deriving DecidableEq, Repr

/-- The `bus.descriptor` record: canonical descriptor string, derivation
depth, age in epoch seconds (`uint32` in Go, hence reduced `% 2^32`). -/
structure descriptor where
  value : String
  depth : ℤ
  age : ℕ
  deriving DecidableEq, Repr

/-- Modelled from the spec: `defaultAccountDepth` (declared outside the
given sources; "Depth defaults to a fixed constant (e.g. 100)"). -/
def defaultAccountDepth : ℤ := 100

/-- Modelled from the spec: `config.BIP0039Genesis.Unix()` (declared outside
the given sources; a fixed protocol-genesis timestamp).  The exact value is
irrelevant to every claim. -/
def bip0039GenesisUnix : ℤ := 1231006505

/-- Modelled from the spec: the message texts of the `bus` error constants
(declared outside the given sources); any texts not containing the
counterexamples' descriptor strings behave identically. -/
def ErrInvalidDescriptor : String := "invalid descriptor"

/-- Modelled from the spec: see `ErrInvalidDescriptor`. -/
def ErrDeriveAddress : String := "failed to derive address"

/-- Modelled from the spec: see `ErrInvalidDescriptor`. -/
def ErrAddressInfo : String := "failed to get address info"

/-- The structured content of the errors `ImportAccounts` can return; each
constructor carries exactly the data the corresponding Go `fmt.Errorf`
interpolates into the message. -/
inductive ImportError
  | clientError (cause : String)
  | invalidDescriptor (cause : String)
  | deriveAddressFailed (descValue : String) (depth : ℤ) (cause : String)
  | addressInfoFailed (address : String) (cause : String)
  | importFailed (cause : String)
  deriving DecidableEq, Repr

/-- The rendered message of an `ImportError`, following the Go format
strings (`"%s (%s - #%d): %w"` etc.) verbatim. -/
def ImportError.message : ImportError → String
  | ImportError.clientError c => c
  | ImportError.invalidDescriptor c => ErrInvalidDescriptor ++ ": " ++ c
  | ImportError.deriveAddressFailed v d c =>
      ErrDeriveAddress ++ " (" ++ v ++ " - #" ++ toString d ++ "): " ++ c
  | ImportError.addressInfoFailed a c =>
      ErrAddressInfo ++ " (" ++ a ++ "): " ++ c
  | ImportError.importFailed c => c

/-- Whether `needle` starts `hay`. -/
def charsStartWith : List Char → List Char → Bool
  | [], _ => true
  | _ :: _, [] => false
  | a :: as, b :: bs => a == b && charsStartWith as bs

/-- Whether `needle` occurs contiguously inside `hay`. -/
def charsContain (needle : List Char) : List Char → Bool
  | [] => needle.isEmpty
  | b :: bs => charsStartWith needle (b :: bs) || charsContain needle bs

/-- Whether the rendered error message contains the string `s`. -/
def ImportError.wraps (e : ImportError) (s : String) : Bool :=
  charsContain s.toList e.message.toList

/-- The `addressInfo.IsWatchOnly` field read by `ImportAccounts`. -/
structure AddressInfo where
  isWatchOnly : Bool
  deriving DecidableEq, Repr

/-- Outcomes of the collaborator calls an `ImportAccounts` invocation can
make, as (pure) functions of the arguments the Go code passes. -/
structure ImportEnv where
  clientFactory : Except String Unit
  getCanonicalDescriptor : String → Except String String
  deriveAddress : String → ℤ → Except String String
  getAddressInfo : String → Except String AddressInfo
  importDescriptors : List descriptor → Except String Unit

/-- Characters of a string up to (excluding) the first `'#'`. -/
def takeBeforeChecksum : List Char → List Char
  | [] => []
  | c :: cs => if c = '#' then [] else c :: takeBeforeChecksum cs

/-- Embedding of `strings.Split(s, "#")[0]`: the first `'#'`-separated segment of `s`
(the whole string when no `'#'` occurs), i.e. the descriptor with its
checksum suffix stripped. -/
def stripChecksum (s : String) : String := String.mk (takeBeforeChecksum s.data)

/-- Embedding of `bus.descriptors`: canonical descriptors for one account —
depth and age defaults, checksum stripping, canonicalization of the
external then the internal descriptor string, first failure aborting with
`ErrInvalidDescriptor`. -/
def descriptors (env : ImportEnv) (account : Account) :
    Except ImportError (List descriptor) :=
  let depth := match account.depth with
    | none => defaultAccountDepth
    | some d => d
  let age : ℕ := (match account.birthday with
    | none => bip0039GenesisUnix
    | some b => b).toNat % 2 ^ 32
  let rawDescs := [stripChecksum account.external, stripChecksum account.internal]
  rawDescs.mapM fun desc =>
    match env.getCanonicalDescriptor desc with
    | Except.error e => Except.error (ImportError.invalidDescriptor e)
    | Except.ok canonicalDesc =>
        Except.ok { value := canonicalDesc, depth := depth, age := age }

/-- The per-descriptor loop of `ImportAccounts`: derive the address at the
descriptor's depth, query its watch-only flag, keep exactly the descriptors
whose derived address is not watch-only; the first failure aborts. -/
def filterToImport (env : ImportEnv) : List descriptor →
    Except ImportError (List descriptor)
  | [] => Except.ok []
  | d :: rest =>
    match env.deriveAddress d.value d.depth with
    | Except.error e =>
        Except.error (ImportError.deriveAddressFailed d.value d.depth e)
    | Except.ok address =>
      match env.getAddressInfo address with
      | Except.error e => Except.error (ImportError.addressInfoFailed address e)
      | Except.ok addressInfo =>
        match filterToImport env rest with
        | Except.error e => Except.error e
        | Except.ok tail =>
            Except.ok (if addressInfo.isWatchOnly then tail else d :: tail)

/-- Result of one `ImportAccounts` call together with the node-side calls it
performed: how many times the client factory ran, how many bulk-import
(`ImportDescriptors`) calls were issued and with which descriptor list. -/
structure ImportResult where
  result : Except ImportError Unit
  factoryCalls : ℕ
  bulkImportCalls : ℕ
  bulkImported : List descriptor
  deriving Repr

/-- Embedding of `Bus.ImportAccounts`.  `accounts = none` is Go's nil slice
(absent account config); `some l` a present (possibly empty) slice.  The
nil check precedes client construction; resolution, filtering and the
emptiness check all precede the single bulk import call. -/
def ImportAccounts (env : ImportEnv) (accounts : Option (List Account)) :
    ImportResult :=
  match accounts with
  | none => { result := Except.ok (), factoryCalls := 0,
              bulkImportCalls := 0, bulkImported := [] }
  | some accs =>
    match env.clientFactory with
    | Except.error e =>
        { result := Except.error (ImportError.clientError e), factoryCalls := 1,
          bulkImportCalls := 0, bulkImported := [] }
    | Except.ok _ =>
      match accs.mapM (descriptors env) with
      | Except.error e =>
          { result := Except.error e, factoryCalls := 1,
            bulkImportCalls := 0, bulkImported := [] }
      | Except.ok descriptorLists =>
        let allDescriptors := descriptorLists.flatten
        match filterToImport env allDescriptors with
        | Except.error e =>
            { result := Except.error e, factoryCalls := 1,
              bulkImportCalls := 0, bulkImported := [] }
        | Except.ok descriptorsToImport =>
          if descriptorsToImport.isEmpty then
            { result := Except.ok (), factoryCalls := 1,
              bulkImportCalls := 0, bulkImported := [] }
          else
            match env.importDescriptors descriptorsToImport with
            | Except.error e =>
                { result := Except.error (ImportError.importFailed e),
                  factoryCalls := 1, bulkImportCalls := 1,
                  bulkImported := descriptorsToImport }
            | Except.ok _ =>
                { result := Except.ok (), factoryCalls := 1,
                  bulkImportCalls := 1, bulkImported := descriptorsToImport }

/-! ## Sync worker orchestrator and progress watchdog (`Bus.Worker`) -/

/-- The persisted rescan checkpoint document (`config.LoadRescanConf`
result): the last fully scanned block height. -/
structure RescanConf where
  lastBlock : ℤ
  deriving DecidableEq, Repr

/-- Embedding of `getPreviousRescanBlock`: a failing checkpoint load (no
`lss_rescan.json`, or an unreadable one) yields the sentinel `-1`,
otherwise the stored `LastBlock`. -/
def getPreviousRescanBlock (conf : Except String RescanConf) : ℤ :=
  match conf with
  | Except.error _ => -1
  | Except.ok c => c.lastBlock

/-- Observable actions of the orchestrator goroutine, in program order:
`interrupt` is `sendInterruptSignal()`, `signalDone` is the
`importDone <- true` send, `pendingSet` a write to `Bus.IsPendingScan`,
and the remaining events are the node-blocking calls. -/
inductive WEvent
  | interrupt
  | signalDone
  | pendingSet (b : Bool)
  | abortRescanCall
  | importAccountsCall
  | rescanCall (startHeight endHeight : ℤ)
  | dumpCall
  deriving DecidableEq, Repr

/-- Which branch of the Deciding `if` the orchestrator entered. -/
inductive WorkerPath
  | importing
  | resuming
  deriving DecidableEq, Repr

/-- Outcomes of the collaborator calls one orchestrator run can make.
`checkWalletSyncStatus` is declared outside the given sources; modelled
from the spec as yielding (on success) the resulting `IsPendingScan`
value, i.e. whether a scan is currently running on the node.
`blockCount` models `GetBlockCount`, which returns `0` along with its
(discarded) error. -/
structure WorkerEnv where
  ibd : Except String Unit
  numbers : Except String Unit
  rescanConf : Except String RescanConf
  checkSync : Except String Bool
  abortRescan : Except String Unit
  importAccounts : Except ImportError Unit
  blockCount : Except String ℤ
  rescanWallet : ℤ → ℤ → Except String Unit
  dump : Except String Unit

/-- One orchestrator run: its event trace and, when the Deciding `if` was
reached, the branch taken. -/
structure WorkerRun where
  events : List WEvent
  path : Option WorkerPath
  deriving Repr

/-- The optional supply-audit phase of the orchestrator goroutine: sets the
pending flag, runs the numbers (failure interrupts), clears the flag. -/
def auditPhase (circulationCheck : Bool) (env : WorkerEnv) :
    Except (List WEvent) (List WEvent) :=
  if circulationCheck then
    match env.numbers with
    | Except.error _ => Except.error [WEvent.pendingSet true, WEvent.interrupt]
    | Except.ok _ => Except.ok [WEvent.pendingSet true, WEvent.pendingSet false]
  else Except.ok []

/-- The common tail of both successful paths: `DumpLatestRescanTime`
(failure only logged) then the `importDone <- true` send. -/
def finishRun (es : List WEvent) (p : WorkerPath) : WorkerRun :=
  { events := es ++ [WEvent.dumpCall, WEvent.signalDone], path := some p }

/-- Embedding of `endHeight, _ := b.GetBlockCount()`: the error is discarded and the
zero value `0` is used when the call fails. -/
def endHeightOf (env : WorkerEnv) : ℤ :=
  match env.blockCount with
  | Except.error _ => 0
  | Except.ok n => n

/-- The forced-import preamble of the Importing branch: when the import is
forced, check the wallet scan status (failure is fatal) and abort an
active scan (failure is fatal). -/
def forcedImportStep (forceImportDesc : Bool) (env : WorkerEnv) :
    Except (List WEvent) (List WEvent) :=
  if forceImportDesc then
    match env.checkSync with
    | Except.error _ => Except.error [WEvent.interrupt]
    | Except.ok pending =>
      if pending then
        match env.abortRescan with
        | Except.error _ =>
            Except.error [WEvent.abortRescanCall, WEvent.interrupt]
        | Except.ok _ => Except.ok [WEvent.abortRescanCall]
      else Except.ok []
  else Except.ok []

/-- Embedding of the orchestrator goroutine of `Bus.Worker`:
wait-for-IBD, optional supply audit, checkpoint read, the Deciding `if`
(`forceImportDesc || isNewWallet || startHeight == -1`), then either the
Importing branch (forced runs first check the wallet scan status and abort
an active scan) or the Resuming branch (check scan status, abort an active
scan logging failures only, then range-rescan from the checkpoint to the
current tip).  Every fatal failure emits `interrupt` and returns;
`isNewWallet` is a `bus` package flag declared outside the given sources,
taken as an input. -/
def workerOrchestrator (circulationCheck forceImportDesc isNewWallet : Bool)
    (env : WorkerEnv) : WorkerRun :=
  match env.ibd with
  | Except.error _ => { events := [WEvent.interrupt], path := none }
  | Except.ok _ =>
    match auditPhase circulationCheck env with
    | Except.error es => { events := es, path := none }
    | Except.ok es0 =>
      let startHeight := getPreviousRescanBlock env.rescanConf
      if forceImportDesc || isNewWallet || startHeight == -1 then
        -- Importing branch.
        match forcedImportStep forceImportDesc env with
        | Except.error es1 =>
            { events := es0 ++ es1, path := some WorkerPath.importing }
        | Except.ok es1 =>
          match env.importAccounts with
          | Except.error _ =>
              { events := es0 ++ es1 ++ [WEvent.pendingSet true,
                  WEvent.importAccountsCall, WEvent.interrupt],
                path := some WorkerPath.importing }
          | Except.ok _ =>
              finishRun (es0 ++ es1 ++ [WEvent.pendingSet true,
                WEvent.importAccountsCall, WEvent.pendingSet false])
                WorkerPath.importing
      else
        -- Resuming branch.
        match env.checkSync with
        | Except.error _ =>
            { events := es0 ++ [WEvent.interrupt],
              path := some WorkerPath.resuming }
        | Except.ok pending =>
          let es1 := if pending then [WEvent.abortRescanCall] else []
          let endHeight := endHeightOf env
          match env.rescanWallet startHeight endHeight with
          | Except.error _ =>
              { events := es0 ++ es1 ++
                  [WEvent.rescanCall startHeight endHeight, WEvent.interrupt],
                path := some WorkerPath.resuming }
          | Except.ok _ =>
              finishRun (es0 ++ es1 ++
                [WEvent.rescanCall startHeight endHeight]) WorkerPath.resuming

/-- The watchdog goroutine's polling loop at loop-iteration granularity:
at each loop head the `select` takes the completion-channel case as soon
as it is receivable (after `signalAt` iterations); otherwise the `default`
arm sleeps and issues one wallet-scan-progress poll.  `fuel` bounds the
number of iterations considered; the result is the number of polls
issued. -/
def watchdogPolls : (signalAt : ℕ) → (fuel : ℕ) → ℕ
  | _, 0 => 0
  | 0, _ + 1 => 0
  | sa + 1, f + 1 => 1 + watchdogPolls sa f

/-! ## Claim theorems -/

/-- C1: for every invocation of `GetStatus`, if the shared pending-scan
flag (`IsPendingScan`) is set, the returned status is `PendingScan`, and
the result does not depend on the collaborator environment at all (no node
query influences it): two invocations under arbitrary different
environments return the identical record. -/
theorem c1_getStatus_pendingScan (b : Bus) (env env' : StatusEnv)
    (h : b.isPendingScan = true) :
    (GetStatus b env).status = StatusKind.pendingScan ∧
      GetStatus b env = GetStatus b env' := by
  unfold GetStatus
  rw [h]
  simp

/-- Concrete instance of `c1_getStatus_pendingScan`: a fully healthy node
and a completely failing node yield the same `PendingScan` record. -/
def c1Bus : Bus :=
  { isPendingScan := true, txIndex := true, pruned := false,
    chain := "main", currency := "bitcoin" }

/-- Healthy collaborator environment for the C1 witness. -/
def c1EnvHealthy : StatusEnv :=
  { clientFactory := Except.ok ()
    blockchainInfo := RpcResult.ok
      { blocks := 700000, headers := 700000, verificationProgress := 1, warnings := [] }
    walletInfo := Except.ok { scanning := ScanningValue.boolVal false } }

/-- Fully failing collaborator environment for the C1 witness. -/
def c1EnvFailing : StatusEnv :=
  { clientFactory := Except.error "connection refused"
    blockchainInfo := RpcResult.rpcError "unreachable"
    walletInfo := Except.error "unreachable" }

theorem c1_getStatus_pendingScan_witness :
    (GetStatus c1Bus c1EnvHealthy).status = StatusKind.pendingScan ∧
      GetStatus c1Bus c1EnvHealthy = GetStatus c1Bus c1EnvFailing :=
  c1_getStatus_pendingScan c1Bus c1EnvHealthy c1EnvFailing rfl

/-- C3: `GetStatus` is total — every combination of collaborator outcomes
yields one of the five status values (the embedding returns an
`ExplorerStatus`, never an error) — and, when the pending flag is unset,
every failure the invocation actually encounters (client construction,
chain RPC, JSON decode, or wallet-info failure at `blocks = headers`)
yields `NodeDisconnected`. -/
theorem c3_getStatus_total (b : Bus) (env : StatusEnv) :
    ((GetStatus b env).status = StatusKind.pendingScan ∨
     (GetStatus b env).status = StatusKind.nodeDisconnected ∨
     (GetStatus b env).status = StatusKind.syncing ∨
     (GetStatus b env).status = StatusKind.scanning ∨
     (GetStatus b env).status = StatusKind.ready) ∧
    (b.isPendingScan = false →
      ((∃ e, env.clientFactory = Except.error e) ∨
       (∃ e, env.blockchainInfo = RpcResult.rpcError e) ∨
       (∃ e, env.blockchainInfo = RpcResult.decodeError e) ∨
       (∃ bc e, env.blockchainInfo = RpcResult.ok bc ∧ bc.blocks = bc.headers ∧
          env.walletInfo = Except.error e)) →
      (GetStatus b env).status = StatusKind.nodeDisconnected) := by
  constructor
  · unfold GetStatus
    repeat' split
    all_goals simp
  · intro hp hfail
    unfold GetStatus
    rw [hp]
    simp only [Bool.false_eq_true, if_false]
    rcases hfail with ⟨e, he⟩ | ⟨e, he⟩ | ⟨e, he⟩ | ⟨bc, e, hbc, hbh, hw⟩
    · rw [he]
    · cases hcf : env.clientFactory with
      | error _ => rfl
      | ok _ => rw [he]
    · cases hcf : env.clientFactory with
      | error _ => rfl
      | ok _ => rw [he]
    · cases hcf : env.clientFactory with
      | error _ => rfl
      | ok _ =>
        rw [hbc]
        simp only [hbh, ne_eq, not_true_eq_false, if_false]
        rw [hw]

/-- Environment for the C3 witness: client construction fails. -/
def c3Env : StatusEnv :=
  { clientFactory := Except.error "dial tcp: connection refused"
    blockchainInfo := RpcResult.decodeError "unexpected shape"
    walletInfo := Except.error "unreachable" }

/-- Bus state for the C3 witness: pending flag unset. -/
def c3Bus : Bus :=
  { isPendingScan := false, txIndex := false, pruned := true,
    chain := "test", currency := "bitcoin_testnet" }

theorem c3_getStatus_total_witness :
    (GetStatus c3Bus c3Env).status = StatusKind.nodeDisconnected :=
  (c3_getStatus_total c3Bus c3Env).2 rfl
    (Or.inl ⟨"dial tcp: connection refused", rfl⟩)

/-- C4: whenever the pending flag is unset, the client is constructed and
the chain snapshot decodes with `blocks ≠ headers`, `GetStatus` returns
`Syncing` with numeric progress `verificationProgress * 100`. -/
theorem c4_getStatus_syncing (b : Bus) (env : StatusEnv) (bc : ChainInfo)
    (hp : b.isPendingScan = false)
    (hcf : env.clientFactory = Except.ok ())
    (hbc : env.blockchainInfo = RpcResult.ok bc)
    (hneq : bc.blocks ≠ bc.headers) :
    (GetStatus b env).status = StatusKind.syncing ∧
      (GetStatus b env).syncProgress = some (bc.verificationProgress * 100) := by
  unfold GetStatus
  rw [hp, hcf, hbc]
  simp [hneq]

/-- Chain snapshot for the C4 witness: blocks=100, headers=200,
verification-progress 0.37. -/
def c4Chain : ChainInfo :=
  { blocks := 100, headers := 200, verificationProgress := 37 / 100, warnings := [] }

/-- Environment for the C4 witness. -/
def c4Env : StatusEnv :=
  { clientFactory := Except.ok ()
    blockchainInfo := RpcResult.ok c4Chain
    walletInfo := Except.ok { scanning := ScanningValue.boolVal false } }

theorem c4_getStatus_syncing_witness :
    (GetStatus c3Bus c4Env).status = StatusKind.syncing ∧
      (GetStatus c3Bus c4Env).syncProgress = some 37 := by
  have h := c4_getStatus_syncing c3Bus c4Env c4Chain rfl rfl rfl (by decide)
  refine ⟨h.1, ?_⟩
  rw [h.2]
  norm_num [c4Chain]

/-- C10: `GetNetwork` is total (the embedding returns a `Network` record,
never nil and never an error): on client-construction failure, RPC failure
or decode failure it returns the zero-valued `Network`; on success it
returns the four decoded fields. -/
theorem c10_getNetwork_total (env : NetworkEnv) :
    (((∃ e, env.clientFactory = Except.error e) ∨
      (∃ e, env.networkInfo = RpcResult.rpcError e) ∨
      (∃ e, env.networkInfo = RpcResult.decodeError e)) →
      GetNetwork env = zeroNetwork) ∧
    (∀ ni, env.clientFactory = Except.ok () → env.networkInfo = RpcResult.ok ni →
      GetNetwork env =
        { relayFee := ni.relayFee, incrementalFee := ni.incrementalFee,
          version := ni.version, subversion := ni.subversion }) := by
  constructor
  · intro hfail
    unfold GetNetwork
    rcases hfail with ⟨e, he⟩ | ⟨e, he⟩ | ⟨e, he⟩
    · rw [he]
    · cases hcf : env.clientFactory with
      | error _ => rfl
      | ok _ => rw [he]
    · cases hcf : env.clientFactory with
      | error _ => rfl
      | ok _ => rw [he]
  · intro ni hcf hni
    unfold GetNetwork
    rw [hcf, hni]

/-- Environment for the C10 witness: raw `getnetworkinfo` decodes
successfully. -/
def c10Env : NetworkEnv :=
  { clientFactory := Except.ok ()
    networkInfo := RpcResult.ok
      { relayFee := 1 / 100000, incrementalFee := 1 / 100000,
        version := 250000, subversion := "/Satoshi:25.0.0/", warnings := [] } }

/-- Environment for the C10 witness: RPC failure. -/
def c10EnvFail : NetworkEnv :=
  { clientFactory := Except.ok ()
    networkInfo := RpcResult.rpcError "unreachable" }

theorem c10_getNetwork_total_witness :
    GetNetwork c10EnvFail = zeroNetwork ∧
      GetNetwork c10Env =
        { relayFee := 1 / 100000, incrementalFee := 1 / 100000,
          version := 250000, subversion := "/Satoshi:25.0.0/" } :=
  ⟨(c10_getNetwork_total c10EnvFail).1 (Or.inr (Or.inl ⟨"unreachable", rfl⟩)),
   (c10_getNetwork_total c10Env).2 _ rfl rfl⟩

/-- C2: the supply audit follows the halving schedule — for every tip
height the loop computes exactly the per-epoch sum
`∑ i < n, 210000 * (50 / 2^i)` plus the correctly-halved subsidy
`50 / 2^n` times the elapsed blocks of the partial final epoch; the
subsidy after `n` epochs is exactly `50 / 2^n` (strictly halving); and the
three concrete heights evaluate as claimed. -/
theorem c2_runTheNumbers_halving :
    (∀ height : ℤ, runTheNumbersSupply height = specExpectedSupply height) ∧
    (∀ n : ℕ, (rtnLoop n (50, 0)).1 = 50 / 2 ^ n) ∧
    runTheNumbersSupply 0 = 0 ∧
    runTheNumbersSupply 210000 = 10500000 ∧
    runTheNumbersSupply 420000 = 15750000 := by
  have key : ∀ height : ℤ, runTheNumbersSupply height = specExpectedSupply height := by
    intro height
    simp only [runTheNumbersSupply, specExpectedSupply]
    rw [rtnLoop_closed]
    ring
  refine ⟨key, fun n => by rw [rtnLoop_closed], ?_, ?_, ?_⟩
  · rw [key]
    norm_num [specExpectedSupply, rtnEpochs, halvingBlocks]
  · rw [key]
    have hn : rtnEpochs 210000 = 1 := by norm_num [rtnEpochs, halvingBlocks]
    norm_num [specExpectedSupply, hn, Finset.sum_range_succ]
  · rw [key]
    have hn : rtnEpochs 420000 = 2 := by
      norm_num [rtnEpochs, halvingBlocks]
      rfl
    norm_num [specExpectedSupply, hn, Finset.sum_range_succ]

/-- Every descriptor surviving the per-descriptor filter of
`ImportAccounts` came from the input list and has a successfully derived,
not-watch-only address. -/
theorem filterToImport_mem (env : ImportEnv) : ∀ (l t : List descriptor),
    filterToImport env l = Except.ok t → ∀ d ∈ t, d ∈ l ∧
      ∃ addr info, env.deriveAddress d.value d.depth = Except.ok addr ∧
        env.getAddressInfo addr = Except.ok info ∧ info.isWatchOnly = false := by
  intro l
  induction l with
  | nil =>
    intro t ht d hd
    rw [filterToImport] at ht
    cases ht
    cases hd
  | cons hd tl ih =>
    intro t ht d hdt
    rw [filterToImport] at ht
    cases hda : env.deriveAddress hd.value hd.depth with
    | error e => rw [hda] at ht; cases ht
    | ok addr =>
      rw [hda] at ht
      dsimp only at ht
      cases hai : env.getAddressInfo addr with
      | error e => rw [hai] at ht; cases ht
      | ok info =>
        rw [hai] at ht
        dsimp only at ht
        cases hrec : filterToImport env tl with
        | error e => rw [hrec] at ht; cases ht
        | ok tail =>
          rw [hrec] at ht
          dsimp only at ht
          cases hwo : info.isWatchOnly with
          | true =>
            rw [hwo] at ht
            simp only [if_true] at ht
            cases ht
            rcases ih _ hrec d hdt with ⟨hmem, w⟩
            exact ⟨List.mem_cons_of_mem _ hmem, w⟩
          | false =>
            rw [hwo] at ht
            simp only [Bool.false_eq_true, if_false] at ht
            cases ht
            rcases List.mem_cons.mp hdt with heq | hmem
            · subst heq
              exact ⟨List.mem_cons_self _ _, addr, info, hda, hai, hwo⟩
            · rcases ih _ hrec d hmem with ⟨hmem', w⟩
              exact ⟨List.mem_cons_of_mem _ hmem', w⟩

/-- If every descriptor's derived address is already watch-only, the filter
succeeds with the empty import set. -/
theorem filterToImport_allWatchOnly (env : ImportEnv) : ∀ l : List descriptor,
    (∀ d ∈ l, ∃ addr info, env.deriveAddress d.value d.depth = Except.ok addr ∧
      env.getAddressInfo addr = Except.ok info ∧ info.isWatchOnly = true) →
    filterToImport env l = Except.ok [] := by
  intro l
  induction l with
  | nil => intro _; rw [filterToImport]
  | cons hd tl ih =>
    intro h
    rcases h hd (List.mem_cons_self _ _) with ⟨addr, info, hda, hai, hwo⟩
    rw [filterToImport, hda]
    dsimp only
    rw [hai]
    dsimp only
    rw [ih (fun d hd' => h d (List.mem_cons_of_mem _ hd'))]
    dsimp only
    rw [hwo]
    simp

/-- A failing filter produced either a derive error carrying the offending
descriptor's value and depth, or an address-info error carrying that
descriptor's successfully derived address. -/
theorem filterToImport_error (env : ImportEnv) : ∀ (l : List descriptor)
    (e : ImportError), filterToImport env l = Except.error e →
    ∃ d ∈ l, (∃ c, e = ImportError.deriveAddressFailed d.value d.depth c) ∨
      (∃ addr c, env.deriveAddress d.value d.depth = Except.ok addr ∧
        e = ImportError.addressInfoFailed addr c) := by
  intro l
  induction l with
  | nil => intro e he; rw [filterToImport] at he; cases he
  | cons hd tl ih =>
    intro e he
    rw [filterToImport] at he
    cases hda : env.deriveAddress hd.value hd.depth with
    | error c =>
      rw [hda] at he
      cases he
      exact ⟨hd, List.mem_cons_self _ _, Or.inl ⟨c, rfl⟩⟩
    | ok addr =>
      rw [hda] at he
      dsimp only at he
      cases hai : env.getAddressInfo addr with
      | error c =>
        rw [hai] at he
        cases he
        exact ⟨hd, List.mem_cons_self _ _, Or.inr ⟨addr, c, hda, rfl⟩⟩
      | ok info =>
        rw [hai] at he
        dsimp only at he
        cases hrec : filterToImport env tl with
        | error e' =>
          rw [hrec] at he
          dsimp only at he
          cases he
          rcases ih e hrec with ⟨d, hmem, w⟩
          exact ⟨d, List.mem_cons_of_mem _ hmem, w⟩
        | ok tail =>
          rw [hrec] at he
          dsimp only at he
          cases hwo : info.isWatchOnly <;> rw [hwo] at he <;> simp at he

/-- C5: import is idempotent — every descriptor whose derived address the
node already reports watch-only is excluded from the import set; when the
filtered set is empty `ImportAccounts` succeeds without calling the bulk
importing primitive; hence a run in which every derived address is already
watch-only (a second run with an unchanged account set) performs zero
bulk-import calls. -/
theorem c5_importAccounts_idempotent (env : ImportEnv) (accs : List Account)
    (descriptorLists : List (List descriptor))
    (hcf : env.clientFactory = Except.ok ())
    (hres : accs.mapM (descriptors env) = Except.ok descriptorLists) :
    (∀ t, filterToImport env descriptorLists.flatten = Except.ok t →
      ∀ d ∈ t, ∃ addr info, env.deriveAddress d.value d.depth = Except.ok addr ∧
        env.getAddressInfo addr = Except.ok info ∧ info.isWatchOnly = false) ∧
    (filterToImport env descriptorLists.flatten = Except.ok [] →
      (ImportAccounts env (some accs)).result = Except.ok () ∧
      (ImportAccounts env (some accs)).bulkImportCalls = 0) ∧
    ((∀ d ∈ descriptorLists.flatten, ∃ addr info,
        env.deriveAddress d.value d.depth = Except.ok addr ∧
        env.getAddressInfo addr = Except.ok info ∧ info.isWatchOnly = true) →
      (ImportAccounts env (some accs)).result = Except.ok () ∧
      (ImportAccounts env (some accs)).bulkImportCalls = 0) := by
  have hempty : filterToImport env descriptorLists.flatten = Except.ok [] →
      (ImportAccounts env (some accs)).result = Except.ok () ∧
      (ImportAccounts env (some accs)).bulkImportCalls = 0 := by
    intro hfil
    simp only [ImportAccounts, hcf, hres, hfil]
    constructor <;> trivial
  refine ⟨?_, hempty, ?_⟩
  · intro t ht d hd
    exact ((filterToImport_mem env _ t ht) d hd).2
  · intro hwo
    exact hempty (filterToImport_allWatchOnly env _ hwo)

/-- Collaborator outcomes for the C5 witness: everything succeeds and every
derived address is already watch-only. -/
def c5Env : ImportEnv :=
  { clientFactory := Except.ok ()
    getCanonicalDescriptor := fun d => Except.ok d
    deriveAddress := fun v _ => Except.ok (String.append "addr-" v)
    getAddressInfo := fun _ => Except.ok { isWatchOnly := true }
    importDescriptors := fun _ => Except.ok () }

/-- Account for the C5 witness. -/
def c5Account : Account :=
  { external := "wpkh(xpubA/0/*)#q1w2", internal := "wpkh(xpubA/1/*)#e3r4",
    depth := none, birthday := none }

/-- The descriptors `c5Account` resolves to under `c5Env`. -/
def c5Descs : List descriptor :=
  [{ value := "wpkh(xpubA/0/*)", depth := 100, age := 1231006505 },
   { value := "wpkh(xpubA/1/*)", depth := 100, age := 1231006505 }]

theorem c5_importAccounts_idempotent_witness :
    (ImportAccounts c5Env (some [c5Account])).result = Except.ok () ∧
      (ImportAccounts c5Env (some [c5Account])).bulkImportCalls = 0 :=
  (c5_importAccounts_idempotent c5Env [c5Account] [c5Descs] rfl rfl).2.2
    (fun d _ =>
      ⟨String.append "addr-" d.value, { isWatchOnly := true }, rfl, rfl, rfl⟩)

/-- Collaborator outcomes for the C6 counterexample: client construction
fails. -/
def c6Env : ImportEnv :=
  { clientFactory := Except.error "node down"
    getCanonicalDescriptor := fun d => Except.ok d
    deriveAddress := fun _ _ => Except.ok "addr"
    getAddressInfo := fun _ => Except.ok { isWatchOnly := true }
    importDescriptors := fun _ => Except.ok () }

/-- C6 counterexample: with a present-but-empty accounts list (Go's empty
non-nil slice), `ImportAccounts` does construct a node client — here the
construction fails and the call returns that error rather than success —
refuting "performing no Node Client operation of any kind (not even client
construction) whenever the accounts list is empty or absent". -/
theorem c6_counterexample :
    (ImportAccounts c6Env (some [])).result =
        Except.error (ImportError.clientError "node down") ∧
      (ImportAccounts c6Env (some [])).factoryCalls = 1 ∧
      (ImportAccounts c6Env (some [])).result ≠ Except.ok () :=
  ⟨rfl, rfl, fun h => Except.noConfusion h⟩

/-- C6 (amended): `ImportAccounts` returns success immediately with no node
client operation when the accounts list is absent (Go nil); when the list
is present but empty it constructs a client — returning the construction
error on failure — and otherwise returns success with no bulk import. -/
theorem c6_importAccounts_noop (env : ImportEnv) :
    (ImportAccounts env none =
      { result := Except.ok (), factoryCalls := 0,
        bulkImportCalls := 0, bulkImported := [] }) ∧
    (env.clientFactory = Except.ok () →
      ImportAccounts env (some []) =
        { result := Except.ok (), factoryCalls := 1,
          bulkImportCalls := 0, bulkImported := [] }) ∧
    (∀ e, env.clientFactory = Except.error e →
      ImportAccounts env (some []) =
        { result := Except.error (ImportError.clientError e), factoryCalls := 1,
          bulkImportCalls := 0, bulkImported := [] }) := by
  refine ⟨rfl, ?_, ?_⟩
  · intro h
    simp only [ImportAccounts, h]
    rfl
  · intro e h
    simp only [ImportAccounts, h]

/-- Collaborator outcomes for the C6 witness: client construction succeeds. -/
def c6EnvOk : ImportEnv :=
  { clientFactory := Except.ok ()
    getCanonicalDescriptor := fun d => Except.ok d
    deriveAddress := fun _ _ => Except.ok "addr"
    getAddressInfo := fun _ => Except.ok { isWatchOnly := true }
    importDescriptors := fun _ => Except.ok () }

theorem c6_importAccounts_noop_witness :
    ImportAccounts c6EnvOk none =
      { result := Except.ok (), factoryCalls := 0,
        bulkImportCalls := 0, bulkImported := [] } ∧
    ImportAccounts c6EnvOk (some []) =
      { result := Except.ok (), factoryCalls := 1,
        bulkImportCalls := 0, bulkImported := [] } :=
  ⟨(c6_importAccounts_noop c6EnvOk).1, (c6_importAccounts_noop c6EnvOk).2.1 rfl⟩

/-- C7 (amended): `ImportAccounts` is atomic on resolution, derivation and
address-lookup failures — the whole call aborts with the failing step's
error and no bulk import request is issued; a derivation failure's error
carries the offending descriptor's value and depth, while an address-info
failure's error carries that descriptor's derived address (not the value
and depth). -/
theorem c7_importAccounts_atomic (env : ImportEnv) (accs : List Account)
    (hcf : env.clientFactory = Except.ok ()) :
    (∀ e, accs.mapM (descriptors env) = Except.error e →
      (ImportAccounts env (some accs)).result = Except.error e ∧
      (ImportAccounts env (some accs)).bulkImportCalls = 0) ∧
    (∀ descriptorLists e, accs.mapM (descriptors env) = Except.ok descriptorLists →
      filterToImport env descriptorLists.flatten = Except.error e →
      (ImportAccounts env (some accs)).result = Except.error e ∧
      (ImportAccounts env (some accs)).bulkImportCalls = 0 ∧
      ∃ d ∈ descriptorLists.flatten,
        (∃ c, e = ImportError.deriveAddressFailed d.value d.depth c) ∨
        (∃ addr c, env.deriveAddress d.value d.depth = Except.ok addr ∧
          e = ImportError.addressInfoFailed addr c)) := by
  constructor
  · intro e hres
    simp only [ImportAccounts, hcf, hres]
    constructor <;> trivial
  · intro dls e hres hfil
    refine ⟨?_, ?_, filterToImport_error env _ e hfil⟩ <;>
      simp only [ImportAccounts, hcf, hres, hfil]

/-- Collaborator outcomes for C7: derivation succeeds but the watch-only
lookup fails. -/
def c7Env : ImportEnv :=
  { clientFactory := Except.ok ()
    getCanonicalDescriptor := fun d => Except.ok d
    deriveAddress := fun _ _ => Except.ok "bc1qaddr7"
    getAddressInfo := fun _ => Except.error "timeout"
    importDescriptors := fun _ => Except.ok () }

/-- Account for C7, with an explicit depth of 42. -/
def c7Account : Account :=
  { external := "wpkh-ext-7#abcd", internal := "wpkh-int-7#efgh",
    depth := some 42, birthday := none }

/-- The descriptors `c7Account` resolves to under `c7Env`. -/
def c7Descs : List descriptor :=
  [{ value := "wpkh-ext-7", depth := 42, age := 1231006505 },
   { value := "wpkh-int-7", depth := 42, age := 1231006505 }]

/-- C7 counterexample: the watch-only lookup of the offending descriptor
(value `"wpkh-ext-7"`, depth 42) fails; the call aborts with no bulk
importing, but the returned error wraps only the derived address — its
rendered message contains neither the descriptor value nor the depth,
refuting "wrapping the offending descriptor value and depth" for lookup
failures. -/
theorem c7_counterexample :
    (ImportAccounts c7Env (some [c7Account])).result =
        Except.error (ImportError.addressInfoFailed "bc1qaddr7" "timeout") ∧
      (ImportAccounts c7Env (some [c7Account])).bulkImportCalls = 0 ∧
      ImportError.wraps (ImportError.addressInfoFailed "bc1qaddr7" "timeout")
        "wpkh-ext-7" = false ∧
      ImportError.wraps (ImportError.addressInfoFailed "bc1qaddr7" "timeout")
        "#42" = false := by
  exact ⟨rfl, rfl, by decide, by decide⟩

theorem c7_importAccounts_atomic_witness :
    (ImportAccounts c7Env (some [c7Account])).result =
        Except.error (ImportError.addressInfoFailed "bc1qaddr7" "timeout") ∧
      (ImportAccounts c7Env (some [c7Account])).bulkImportCalls = 0 ∧
      ∃ d ∈ ([c7Descs] : List (List descriptor)).flatten,
        (∃ c, ImportError.addressInfoFailed "bc1qaddr7" "timeout" =
          ImportError.deriveAddressFailed d.value d.depth c) ∨
        (∃ addr c, c7Env.deriveAddress d.value d.depth = Except.ok addr ∧
          ImportError.addressInfoFailed "bc1qaddr7" "timeout" =
            ImportError.addressInfoFailed addr c) :=
  (c7_importAccounts_atomic c7Env [c7Account] rfl).2 [c7Descs] _ rfl rfl

/-- Once the orchestrator reaches the Deciding step (IBD wait succeeded and
the optional audit succeeded), the branch taken is determined exactly by
`forceImportDesc || isNewWallet || startHeight == -1`. -/
theorem workerOrchestrator_path (cc f nw : Bool) (env : WorkerEnv)
    (es0 : List WEvent) (hibd : env.ibd = Except.ok ())
    (haud : auditPhase cc env = Except.ok es0) :
    (workerOrchestrator cc f nw env).path =
      some (if f || nw || (getPreviousRescanBlock env.rescanConf == -1)
        then WorkerPath.importing else WorkerPath.resuming) := by
  unfold workerOrchestrator
  rw [hibd]
  dsimp only
  rw [haud]
  dsimp only
  by_cases hc : (f || nw || (getPreviousRescanBlock env.rescanConf == -1)) = true
  · simp only [hc, if_true]
    split
    · rfl
    · split <;> rfl
  · simp only [Bool.not_eq_true] at hc
    simp only [hc, Bool.false_eq_true, if_false]
    split
    · rfl
    · split <;> rfl

/-- C8: the Deciding step chooses the Importing path iff the forced-import
flag is set, or a brand-new wallet is detected, or the checkpoint read
yields the sentinel `-1`; in every other case it chooses the Resuming
path, whose (reachable) rescan call ranges from the checkpoint's last
block height to the current tip height. -/
theorem c8_worker_deciding (cc f nw : Bool) (env : WorkerEnv)
    (es0 : List WEvent) (hibd : env.ibd = Except.ok ())
    (haud : auditPhase cc env = Except.ok es0) :
    ((workerOrchestrator cc f nw env).path = some WorkerPath.importing ↔
      (f = true ∨ nw = true ∨ getPreviousRescanBlock env.rescanConf = -1)) ∧
    ((workerOrchestrator cc f nw env).path = some WorkerPath.resuming ↔
      ¬(f = true ∨ nw = true ∨ getPreviousRescanBlock env.rescanConf = -1)) ∧
    (∀ pending, env.checkSync = Except.ok pending →
      (workerOrchestrator cc f nw env).path = some WorkerPath.resuming →
      WEvent.rescanCall (getPreviousRescanBlock env.rescanConf) (endHeightOf env)
        ∈ (workerOrchestrator cc f nw env).events) := by
  have hpath := workerOrchestrator_path cc f nw env es0 hibd haud
  have hcond : (f || nw || (getPreviousRescanBlock env.rescanConf == -1)) = true ↔
      (f = true ∨ nw = true ∨ getPreviousRescanBlock env.rescanConf = -1) := by
    simp [Bool.or_eq_true, beq_iff_eq, or_assoc]
  refine ⟨?_, ?_, ?_⟩
  · rw [hpath]
    rcases hb : (f || nw || (getPreviousRescanBlock env.rescanConf == -1)) with _ | _
    · simp only [Bool.false_eq_true, if_false]
      constructor
      · intro h; cases h
      · intro h; rw [← hcond] at h; rw [hb] at h; cases h
    · simp only [if_true]
      simp [hcond.mp hb]
  · rw [hpath]
    rcases hb : (f || nw || (getPreviousRescanBlock env.rescanConf == -1)) with _ | _
    · simp only [Bool.false_eq_true, if_false]
      constructor
      · intro _ h; rw [← hcond] at h; rw [hb] at h; cases h
      · intro _; trivial
    · simp only [if_true]
      constructor
      · intro h; cases h
      · intro h; exact absurd (hcond.mp hb) h
  · intro pending hcs hres
    rw [hpath] at hres
    rcases hb : (f || nw || (getPreviousRescanBlock env.rescanConf == -1)) with _ | _
    · unfold workerOrchestrator
      rw [hibd]
      dsimp only
      rw [haud]
      dsimp only
      simp only [hb, Bool.false_eq_true, if_false]
      rw [hcs]
      dsimp only
      cases hrw : env.rescanWallet (getPreviousRescanBlock env.rescanConf)
          (endHeightOf env) with
      | error e => simp [List.mem_append]
      | ok u => simp [finishRun, List.mem_append]
    · rw [hb] at hres
      simp at hres

/-- Collaborator outcomes for the C8 witness: an existing checkpoint at
height 123 and a tip at height 800; no forced import, not a new wallet. -/
def c8Env : WorkerEnv :=
  { ibd := Except.ok ()
    numbers := Except.ok ()
    rescanConf := Except.ok { lastBlock := 123 }
    checkSync := Except.ok false
    abortRescan := Except.ok ()
    importAccounts := Except.ok ()
    blockCount := Except.ok 800
    rescanWallet := fun _ _ => Except.ok ()
    dump := Except.ok () }

theorem c8_worker_deciding_witness :
    (workerOrchestrator false false false c8Env).path = some WorkerPath.resuming ∧
      WEvent.rescanCall 123 800 ∈ (workerOrchestrator false false false c8Env).events := by
  have h := c8_worker_deciding false false false c8Env [] rfl rfl
  have hne : ¬(false = true ∨ false = true ∨
      getPreviousRescanBlock c8Env.rescanConf = -1) := by
    intro hor
    rcases hor with h1 | h1 | h1
    · cases h1
    · cases h1
    · exact absurd h1 (by decide)
  have hp : (workerOrchestrator false false false c8Env).path =
      some WorkerPath.resuming := h.2.1.mpr hne
  exact ⟨hp, h.2.2 false rfl hp⟩

/-- The watchdog issues no poll at or after the loop iteration from which
the completion signal is receivable. -/
theorem watchdogPolls_le : ∀ sa fuel : ℕ, watchdogPolls sa fuel ≤ sa := by
  intro sa fuel
  induction fuel generalizing sa with
  | zero => cases sa <;> simp [watchdogPolls]
  | succ f ih =>
    cases sa with
    | zero => simp [watchdogPolls]
    | succ sa' =>
      rw [watchdogPolls]
      have h := ih sa'
      omega

/-- The audit phase emits neither a completion signal nor more than one
interrupt: a failing audit's trace has exactly one interrupt, a successful
one has none. -/
theorem auditPhase_counts (cc : Bool) (env : WorkerEnv) :
    (∀ es, auditPhase cc env = Except.error es →
      es.count WEvent.signalDone = 0 ∧ es.count WEvent.interrupt = 1) ∧
    (∀ es, auditPhase cc env = Except.ok es →
      es.count WEvent.signalDone = 0 ∧ es.count WEvent.interrupt = 0) := by
  constructor <;> intro es h <;> unfold auditPhase at h <;>
    split at h <;> try split at h
  all_goals first
    | (cases h; constructor <;> rfl)
    | cases h

/-- The forced-import preamble emits neither a completion signal nor, on
success, an interrupt; its failure traces carry exactly one interrupt. -/
theorem forcedImportStep_counts (f : Bool) (env : WorkerEnv) :
    (∀ es, forcedImportStep f env = Except.error es →
      es.count WEvent.signalDone = 0 ∧ es.count WEvent.interrupt = 1) ∧
    (∀ es, forcedImportStep f env = Except.ok es →
      es.count WEvent.signalDone = 0 ∧ es.count WEvent.interrupt = 0) := by
  constructor <;> intro es h <;> unfold forcedImportStep at h <;>
    repeat' split at h
  all_goals first
    | (cases h; constructor <;> rfl)
    | cases h

/-- C9 (amended): every orchestrator run fires exactly one terminal event —
the completion signal exactly once (and no interrupt) on the success path,
or the process-wide interrupt exactly once (and no completion signal) on
every failure path; and the watchdog, which checks the signal at each loop
head, issues no wallet-scan-progress poll from the iteration at which the
signal is receivable. -/
theorem c9_worker_signal_once (cc f nw : Bool) (env : WorkerEnv) :
    (((workerOrchestrator cc f nw env).events.count WEvent.signalDone = 1 ∧
      (workerOrchestrator cc f nw env).events.count WEvent.interrupt = 0) ∨
     ((workerOrchestrator cc f nw env).events.count WEvent.signalDone = 0 ∧
      (workerOrchestrator cc f nw env).events.count WEvent.interrupt = 1)) ∧
    (∀ signalAt fuel, watchdogPolls signalAt fuel ≤ signalAt) := by
  refine ⟨?_, watchdogPolls_le⟩
  unfold workerOrchestrator
  cases hibd : env.ibd with
  | error e => right; constructor <;> rfl
  | ok u =>
    dsimp only
    cases haud : auditPhase cc env with
    | error es =>
      dsimp only
      right
      exact (auditPhase_counts cc env).1 es haud
    | ok es0 =>
      dsimp only
      obtain ⟨hs0, hi0⟩ := (auditPhase_counts cc env).2 es0 haud
      by_cases hc : (f || nw || (getPreviousRescanBlock env.rescanConf == -1)) = true
      · simp only [hc, if_true]
        cases hstep : forcedImportStep f env with
        | error es1 =>
          obtain ⟨hs1, hi1⟩ := (forcedImportStep_counts f env).1 es1 hstep
          right
          constructor <;> simp [List.count_append, hs0, hi0, hs1, hi1]
        | ok es1 =>
          obtain ⟨hs1, hi1⟩ := (forcedImportStep_counts f env).2 es1 hstep
          cases himp : env.importAccounts with
          | error e =>
            right
            constructor <;>
              simp [List.count_append, hs0, hi0, hs1, hi1, List.count_cons]
          | ok u =>
            left
            constructor <;>
              simp [finishRun, List.count_append, hs0, hi0, hs1, hi1,
                List.count_cons]
      · simp only [Bool.not_eq_true] at hc
        simp only [hc, Bool.false_eq_true, if_false]
        cases hcs : env.checkSync with
        | error e =>
          right
          constructor <;> simp [List.count_append, hs0, hi0, List.count_cons]
        | ok pending =>
          dsimp only
          have hs1 : (if pending = true then [WEvent.abortRescanCall]
              else []).count WEvent.signalDone = 0 := by
            cases pending <;> rfl
          have hi1 : (if pending = true then [WEvent.abortRescanCall]
              else []).count WEvent.interrupt = 0 := by
            cases pending <;> rfl
          cases hrw : env.rescanWallet (getPreviousRescanBlock env.rescanConf)
              (endHeightOf env) with
          | error e =>
            right
            constructor <;>
              simp [List.count_append, hs0, hi0, hs1, hi1, List.count_cons]
          | ok u =>
            left
            constructor <;>
              simp [finishRun, List.count_append, hs0, hi0, hs1, hi1,
                List.count_cons]

/-- Collaborator outcomes for the C9 counterexample: the IBD wait fails. -/
def c9Env : WorkerEnv :=
  { ibd := Except.error "getblockchaininfo: connection refused"
    numbers := Except.ok ()
    rescanConf := Except.ok { lastBlock := 123 }
    checkSync := Except.ok false
    abortRescan := Except.ok ()
    importAccounts := Except.ok ()
    blockCount := Except.ok 800
    rescanWallet := fun _ _ => Except.ok ()
    dump := Except.ok () }

/-- C9 counterexample: on a failure path (IBD wait fails) the orchestrator
fires the completion signal zero times — not once — and instead raises the
process interrupt; this refutes "fires the one-shot completion signal
exactly once on both its success path and its failure path". -/
theorem c9_counterexample :
    (workerOrchestrator false false false c9Env).events.count
        WEvent.signalDone ≠ 1 ∧
      (workerOrchestrator false false false c9Env).events.count
        WEvent.signalDone = 0 ∧
      (workerOrchestrator false false false c9Env).events.count
        WEvent.interrupt = 1 := by
  refine ⟨?_, rfl, rfl⟩
  intro h
  rw [show (workerOrchestrator false false false c9Env).events.count
      WEvent.signalDone = 0 from rfl] at h
  cases h

end Satstack
